import Mathlib

/-!
# Host-side RPC bridge: `offload/plugins-nextgen/common/src/RPC.cpp`

A shallow embedding of `RPCServerTy` (constructor, `initDevice`, `runServer`,
`deinitDevice`) as compiled with `LIBOMPTARGET_RPC_SUPPORT` defined, which is the
build in which the bodies between `#ifdef LIBOMPTARGET_RPC_SUPPORT` and `#endif`
are present.

Every call that leaves `RPC.cpp` (device allocator, device memory transfers,
global-symbol lookup, the port transport, the `libc` opcode handler) is recorded
as an `Event` appended to a trace, in program order.  The value such a call
returns is supplied by the collaborator as an arbitrary function of the trace so
far and of the arguments, so a theorem quantified over the collaborators covers
every outcome they can produce.

Addresses and machine integers are natural numbers; the code performs no
arithmetic on them besides `std::min`, so no wrap-around can occur.  `nullptr`
is `0`.
-/

namespace RPC

/-- A host or device address; `0` stands for `nullptr`. -/
abbrev Ptr := Nat

/-- The allocation kinds of `omptarget.h` (only their identity matters here). -/
inductive TargetAllocTy where
  | TARGET_ALLOC_DEVICE
  | TARGET_ALLOC_HOST
  | TARGET_ALLOC_SHARED
  | TARGET_ALLOC_DEVICE_NON_BLOCKING
  deriving DecidableEq, Repr

/-- The value of an `llvm::Error`: success, or a failure carrying its message. -/
inductive Error where
  | success
  | error (msg : String)
  deriving DecidableEq, Repr

/-- Outcome of a collaborator call that yields a value or fails with a message. -/
inductive Expected (α : Type) where
  | ok (val : α)
  | fail (msg : String)
  deriving DecidableEq, Repr

/-- The arguments of the constructor call `rpc::Client client(NumPorts, RPCBuffer)`. -/
structure Client where
  NumPorts : Nat
  Buffer : Ptr
  deriving DecidableEq, Repr

/-- The arguments of the constructor call `rpc::Server Server(NumPorts, Buffers[...])`. -/
structure Server where
  NumPorts : Nat
  Buffer : Ptr
  deriving DecidableEq, Repr

/-- An opened port as seen by `runServer`: which slot it is, the opcode reported by
`get_opcode()`, and `Buffer->data[0]` of the packet buffer of each active lane, in
lane order (the callbacks given to `recv` and `recv_and_send` run once per such
buffer). -/
structure Port where
  index : Nat
  opcode : Nat
  data : List Nat
  deriving DecidableEq, Repr

/-- One call made by `RPC.cpp` into a collaborator, with its arguments and, where
the call returns something, the value returned. -/
inductive Event where
  /-- Call `Device.allocate(Size, HostPtr, Kind)`, which returned `Ret`. -/
  | allocate (DeviceId : Nat) (Size : Nat) (HostPtr : Ptr) (Kind : TargetAllocTy) (Ret : Ptr)
  /-- Call `Device.free(TgtPtr, Kind)`. -/
  | free (DeviceId : Nat) (TgtPtr : Ptr) (Kind : TargetAllocTy)
  /-- Call `Handler.getGlobalMetadataFromDevice(Device, Image, GlobalTy(Name, Size))`;
  on success `Ret` is the symbol address stored into the global (`getPtr()`). -/
  | getGlobalMetadataFromDevice (DeviceId : Nat) (Image : Nat) (Name : String) (Size : Nat)
      (Ret : Expected Ptr)
  /-- Call `Device.dataRetrieve(&HostVar, TgtPtr, Size, nullptr)`; on success `Ret` is the
  pointer value read into the host variable. -/
  | dataRetrieve (DeviceId : Nat) (TgtPtr : Ptr) (Size : Nat) (Ret : Expected Ptr)
  /-- Call `Device.dataSubmit(TgtPtr, &client, Size, nullptr)`, which returned `Ret`. -/
  | dataSubmit (DeviceId : Nat) (TgtPtr : Ptr) (client : Client) (Size : Nat) (Ret : Error)
  /-- Call `Server.try_open(lane_size)` on the server view `S`, which returned `Ret`. -/
  | try_open (S : Server) (lane_size : Nat) (Ret : Option Port)
  /-- The send half of `port->recv_and_send(...)`: the packet, whose `data[0]` fields
  now hold `response`, is handed back to the client. -/
  | send (port : Port) (response : List Nat)
  /-- Call `libc_handle_rpc_port(&*port, num_lanes)`, which returned `Status`. -/
  | libc_handle_rpc_port (port : Port) (num_lanes : Nat) (Status : Int)
  /-- Call `port->close()`. -/
  | close (port : Port)
  deriving DecidableEq, Repr

/-- The calls made so far, oldest first. -/
abbrev Trace := List Event

/-- What `shared/rpc.h`, `llvmlibc_rpc_server.h` and `rpc_opcodes_t.h` provide to
`RPC.cpp`.  These headers are not part of the sources, so their constants and
functions are parameters.  `opcodes_distinct` holds because the two opcodes are
labels of one `switch`. -/
structure Transport where
  MAX_PORT_COUNT : Nat
  SUCCESS : Int
  RPC_MALLOC : Nat
  RPC_FREE : Nat
  opcodes_distinct : RPC_MALLOC ≠ RPC_FREE
  /-- The value of `sizeof(void *)`. -/
  sizeofPtr : Nat
  /-- The value of `sizeof(rpc::Client)`. -/
  sizeofClient : Nat
  /-- The function `rpc::Server::allocation_size(lane_size, port_count)`. -/
  allocation_size : Nat → Nat → Nat
  /-- What `Server.try_open(lane_size)` returns, given the calls made so far. -/
  try_open : Trace → Server → Nat → Option Port
  /-- What `libc_handle_rpc_port(port, num_lanes)` returns, given the calls so far. -/
  libc_handle_rpc_port : Trace → Port → Nat → Int

/-- The part of `plugin::GenericDeviceTy` that `RPC.cpp` uses. -/
structure GenericDeviceTy where
  getDeviceId : Nat
  getWarpSize : Nat
  requestedRPCPortCount : Nat
  /-- What `allocate(Size, HostPtr, Kind)` returns, given the calls made so far. -/
  allocate : Trace → Nat → Ptr → TargetAllocTy → Ptr
  /-- What `dataRetrieve(&HostVar, TgtPtr, Size, nullptr)` does, given the calls so far. -/
  dataRetrieve : Trace → Ptr → Nat → Expected Ptr
  /-- What `dataSubmit(TgtPtr, &client, Size, nullptr)` returns, given the calls so far. -/
  dataSubmit : Trace → Ptr → Client → Nat → Error

/-- The part of `plugin::GenericGlobalHandlerTy` that `initDevice` uses; the image is
identified by a number. -/
structure GenericGlobalHandlerTy where
  getGlobalMetadataFromDevice : Trace → Nat → Nat → String → Nat → Expected Ptr

/-- The data member of `RPCServerTy`: one buffer pointer per device, indexed by
device id. -/
structure RPCServerTy where
  Buffers : List Ptr
  deriving DecidableEq, Repr

/-- What a member function leaves behind: the `Error` it returns, the object after
the call, and the trace extended by the calls it made. -/
structure Result where
  Err : Error
  Server : RPCServerTy
  trace : Trace
  deriving DecidableEq, Repr

/-- The constructor `RPCServerTy::RPCServerTy(Plugin)` (lines 26-27):
`Buffers(Plugin.getNumDevices())`, that many null pointers. -/
def RPCServerTy.new (NumDevices : Nat) : RPCServerTy :=
  ⟨List.replicate NumDevices 0⟩

/-- The read `Buffers[Id]`.  The C++ read is defined only for `Id < Buffers.size()`;
outside that range this model yields `nullptr`. -/
def RPCServerTy.get (S : RPCServerTy) (Id : Nat) : Ptr :=
  S.Buffers.getD Id 0

/-- The write `Buffers[Id] = P`.  Defined in C++ only for `Id < Buffers.size()`;
outside that range this model leaves the vector as it is. -/
def RPCServerTy.put (S : RPCServerTy) (Id : Nat) (P : Ptr) : RPCServerTy :=
  ⟨S.Buffers.set Id P⟩

/-- Embeds `RPCServerTy::initDevice` (lines 40-74). -/
def initDevice (T : Transport) (Device : GenericDeviceTy) (Handler : GenericGlobalHandlerTy)
    (Image : Nat) (S : RPCServerTy) (t : Trace) : Result :=
  let NumPorts := min Device.requestedRPCPortCount T.MAX_PORT_COUNT
  let Size := T.allocation_size Device.getWarpSize NumPorts
  let RPCBuffer := Device.allocate t Size 0 TargetAllocTy.TARGET_ALLOC_HOST
  let t1 := t ++ [Event.allocate Device.getDeviceId Size 0 TargetAllocTy.TARGET_ALLOC_HOST RPCBuffer]
  if RPCBuffer = 0 then
    ⟨Error.error ("Failed to initialize RPC server for device " ++ toString Device.getDeviceId),
      S, t1⟩
  else
    let G := Handler.getGlobalMetadataFromDevice t1 Device.getDeviceId Image
      "__llvm_libc_rpc_client" T.sizeofPtr
    let t2 := t1 ++ [Event.getGlobalMetadataFromDevice Device.getDeviceId Image
      "__llvm_libc_rpc_client" T.sizeofPtr G]
    match G with
    | Expected.fail msg => ⟨Error.error msg, S, t2⟩
    | Expected.ok ClientGlobalPtr =>
      let R := Device.dataRetrieve t2 ClientGlobalPtr T.sizeofPtr
      let t3 := t2 ++ [Event.dataRetrieve Device.getDeviceId ClientGlobalPtr T.sizeofPtr R]
      match R with
      | Expected.fail msg => ⟨Error.error msg, S, t3⟩
      | Expected.ok ClientPtr =>
        let client : Client := ⟨NumPorts, RPCBuffer⟩
        let E := Device.dataSubmit t3 ClientPtr client T.sizeofClient
        let t4 := t3 ++ [Event.dataSubmit Device.getDeviceId ClientPtr client T.sizeofClient E]
        match E with
        | Error.error msg => ⟨Error.error msg, S, t4⟩
        | Error.success => ⟨Error.success, S.put Device.getDeviceId RPCBuffer, t4⟩

/-- The lambda of `case RPC_MALLOC` (lines 89-92) run on one lane buffer whose
`data[0]` is `d`: it calls the device allocator and stores the returned address
into `data[0]`.  The accumulator is the trace and the `data[0]` values written so
far. -/
def mallocLane (Device : GenericDeviceTy) (acc : Trace × List Nat) (d : Nat) :
    Trace × List Nat :=
  let Ret := Device.allocate acc.1 d 0 TargetAllocTy.TARGET_ALLOC_DEVICE_NON_BLOCKING
  (acc.1 ++ [Event.allocate Device.getDeviceId d 0
      TargetAllocTy.TARGET_ALLOC_DEVICE_NON_BLOCKING Ret],
    acc.2 ++ [Ret])

/-- The lambda of `case RPC_FREE` (lines 96-99) run on one lane buffer whose
`data[0]` is `d`. -/
def freeLane (Device : GenericDeviceTy) (t : Trace) (d : Nat) : Trace :=
  t ++ [Event.free Device.getDeviceId d TargetAllocTy.TARGET_ALLOC_DEVICE_NON_BLOCKING]

/-- Modelled from the spec: `port.receiveAndSend(fn)` of the channel transport
(`shared/rpc.h` is not part of the sources).  The callback runs on the payload
buffer of every active lane, in lane order, and the buffers as the callback left
them are then sent back as the response. -/
def recv_and_send (fn : Trace × List Nat → Nat → Trace × List Nat) (port : Port)
    (t : Trace) : Trace :=
  let r := port.data.foldl fn (t, [])
  r.1 ++ [Event.send port r.2]

/-- Modelled from the spec: `port.receive(fn)` of the channel transport
(`shared/rpc.h` is not part of the sources).  The callback runs on the payload
buffer of every active lane, in lane order; nothing is sent back. -/
def recv (fn : Trace → Nat → Trace) (port : Port) (t : Trace) : Trace :=
  port.data.foldl fn t

/-- The `switch (port->get_opcode())` of `runServer` (lines 86-106): the status it
leaves in `Status` and the trace after the selected case has run. -/
def dispatch (T : Transport) (Device : GenericDeviceTy) (port : Port) (t : Trace) :
    Int × Trace :=
  if port.opcode = T.RPC_MALLOC then
    (T.SUCCESS, recv_and_send (mallocLane Device) port t)
  else if port.opcode = T.RPC_FREE then
    (T.SUCCESS, recv (freeLane Device) port t)
  else
    let Status := T.libc_handle_rpc_port t port Device.getWarpSize
    (Status, t ++ [Event.libc_handle_rpc_port port Device.getWarpSize Status])

/-- Embeds `RPCServerTy::runServer` (lines 76-115). -/
def runServer (T : Transport) (Device : GenericDeviceTy) (S : RPCServerTy) (t : Trace) :
    Result :=
  let NumPorts := min Device.requestedRPCPortCount T.MAX_PORT_COUNT
  let Srv : Server := ⟨NumPorts, S.get Device.getDeviceId⟩
  let port := T.try_open t Srv Device.getWarpSize
  let t1 := t ++ [Event.try_open Srv Device.getWarpSize port]
  match port with
  | none => ⟨Error.success, S, t1⟩
  | some p =>
    let r := dispatch T Device p t1
    let t2 := r.2 ++ [Event.close p]
    if r.1 ≠ T.SUCCESS then
      ⟨Error.error "RPC server given invalid opcode!", S, t2⟩
    else
      ⟨Error.success, S, t2⟩

/-- Embeds `RPCServerTy::deinitDevice` (lines 117-123). -/
def deinitDevice (Device : GenericDeviceTy) (S : RPCServerTy) (t : Trace) : Result :=
  ⟨Error.success, S,
    t ++ [Event.free Device.getDeviceId (S.get Device.getDeviceId)
      TargetAllocTy.TARGET_ALLOC_HOST]⟩

/-! ## Observations on traces -/

/-- Whether the event is a `port->close()`. -/
def Event.isClose : Event → Bool
  | Event.close _ => true
  | _ => false

/-- Whether the event is a `Device.dataSubmit`. -/
def Event.isDataSubmit : Event → Bool
  | Event.dataSubmit _ _ _ _ _ => true
  | _ => false

/-- Whether the event is a call of the device allocator, of `Device.free`, of the
external handler or of `close`: every call `runServer` can make besides `try_open`
and the send half of `recv_and_send`. -/
def Event.isService : Event → Bool
  | Event.allocate _ _ _ _ _ => true
  | Event.free _ _ _ => true
  | Event.libc_handle_rpc_port _ _ _ => true
  | Event.close _ => true
  | _ => false

/-- Whether the event opens a port (`try_open` returning one) or closes one. -/
def Event.isOpenOrClose : Event → Bool
  | Event.try_open _ _ (some _) => true
  | Event.close _ => true
  | _ => false

/-- The effect of one event on the list of open ports: `try_open` returning a port
opens it, `close` closes it, every other call leaves the list alone. -/
def portStep (acc : List Port) (e : Event) : List Port :=
  match e with
  | Event.try_open _ _ (some p) => p :: acc
  | Event.close p => acc.erase p
  | _ => acc

/-- The ports that are open after the calls of a trace. -/
def openPorts (t : Trace) : List Port :=
  t.foldl portStep []

/-- The server view that `runServer` constructs on lines 78-80 for a device, given
the object `S`: `rpc::Server Server(NumPorts, Buffers[Device.getDeviceId()])`. -/
def serverView (T : Transport) (Device : GenericDeviceTy) (S : RPCServerTy) : Server :=
  ⟨min Device.requestedRPCPortCount T.MAX_PORT_COUNT, S.get Device.getDeviceId⟩

/-- The client descriptor that device memory of device `DeviceId` holds at address
`Addr` after the calls of a trace: the one written there by the latest
`dataSubmit` that succeeded, if any. -/
def clientAt (DeviceId : Nat) (Addr : Ptr) (t : Trace) : Option Client :=
  t.foldl (fun acc e =>
    match e with
    | Event.dataSubmit d a c _ Error.success => if d = DeviceId ∧ a = Addr then some c else acc
    | _ => acc) none

/-- The state after `n` calls of `runServer` in a row for one device, starting from
object `S` and trace `t`; `Err` is what the last call returned (success for
`n = 0`). -/
def runServerTimes (T : Transport) (Device : GenericDeviceTy) :
    Nat → RPCServerTy → Trace → Result
  | 0, S, t => ⟨Error.success, S, t⟩
  | n + 1, S, t =>
    let r := runServerTimes T Device n S t
    runServer T Device r.Server r.trace

/-! ## A concrete plugin, used to evaluate the definitions -/

/-- A transport with fixed constants whose `try_open` always returns `pending` and
whose external handler always returns `status`. -/
def demoTransport (pending : Option Port) (status : Int) : Transport where
  MAX_PORT_COUNT := 4096
  SUCCESS := 0
  RPC_MALLOC := 5
  RPC_FREE := 6
  opcodes_distinct := by decide
  sizeofPtr := 8
  sizeofClient := 48
  allocation_size := fun lane_size port_count => port_count * (16 + 64 * lane_size)
  try_open := fun _ _ _ => pending
  libc_handle_rpc_port := fun _ _ _ => status

/-- Device 1 of a plugin: 32 lanes, 8192 requested ports; host allocations return
`hostBuf`, device allocations return `devBuf`; the pointer stored in device memory
at any address is `200`; `dataSubmit` returns `submit`. -/
def demoDevice (hostBuf devBuf : Ptr) (submit : Error) : GenericDeviceTy where
  getDeviceId := 1
  getWarpSize := 32
  requestedRPCPortCount := 8192
  allocate := fun _ _ _ Kind =>
    if Kind = TargetAllocTy.TARGET_ALLOC_HOST then hostBuf else devBuf
  dataRetrieve := fun _ _ _ => Expected.ok 200
  dataSubmit := fun _ _ _ _ => submit

/-- A global handler that reports every symbol at address `100`. -/
def demoHandler : GenericGlobalHandlerTy where
  getGlobalMetadataFromDevice := fun _ _ _ _ _ => Expected.ok 100


/-- A pending allocation request for 4096 bytes on slot 0, one active lane. -/
def demoMallocPort : Port := ⟨0, 5, [4096]⟩

/-- A pending request on slot 0, one active lane, to free the address 7. -/
def demoFreePort : Port := ⟨0, 6, [7]⟩

/-- A pending request on slot 0 with an opcode that `runServer` does not handle. -/
def demoOtherPort : Port := ⟨0, 9, [0]⟩

/-! ## Lemmas on the embedding -/

theorem openPorts_eq_foldl (t : Trace) : openPorts t = t.foldl portStep [] := rfl

theorem portStep_neutral (acc : List Port) (e : Event) (h : e.isOpenOrClose = false) :
    portStep acc e = acc := by
  cases e <;> simp_all [portStep, Event.isOpenOrClose]
  rename_i S l Ret
  cases Ret <;> simp_all [Event.isOpenOrClose]

theorem foldl_portStep_neutral (h : Trace) (acc : List Port)
    (hh : ∀ e ∈ h, e.isOpenOrClose = false) : h.foldl portStep acc = acc := by
  induction h generalizing acc with
  | nil => rfl
  | cons e h ih =>
    simp only [List.foldl_cons]
    rw [portStep_neutral acc e (hh e (List.mem_cons_self _ _))]
    exact ih acc (fun e he => hh e (List.mem_cons_of_mem _ he))

theorem openPorts_append_neutral (t h : Trace) (hh : ∀ e ∈ h, e.isOpenOrClose = false) :
    openPorts (t ++ h) = openPorts t := by
  simp only [openPorts_eq_foldl, List.foldl_append]
  exact foldl_portStep_neutral h _ hh

theorem countP_isClose_neutral (h : Trace) (hh : ∀ e ∈ h, e.isOpenOrClose = false) :
    h.countP Event.isClose = 0 := by
  rw [List.countP_eq_zero]
  intro e he
  have := hh e he
  cases e <;> simp_all [Event.isClose, Event.isOpenOrClose]

theorem mallocLane_foldl (Device : GenericDeviceTy) (data : List Nat) (acc : Trace × List Nat) :
    ∃ h : Trace, (data.foldl (mallocLane Device) acc).1 = acc.1 ++ h ∧
      ∀ e ∈ h, e.isOpenOrClose = false := by
  induction data generalizing acc with
  | nil => exact ⟨[], by simp, by simp⟩
  | cons d data ih =>
    obtain ⟨h, h1, h2⟩ := ih (mallocLane Device acc d)
    refine ⟨Event.allocate Device.getDeviceId d 0 TargetAllocTy.TARGET_ALLOC_DEVICE_NON_BLOCKING
      (Device.allocate acc.1 d 0 TargetAllocTy.TARGET_ALLOC_DEVICE_NON_BLOCKING) :: h, ?_, ?_⟩
    · rw [List.foldl_cons, h1]
      simp only [mallocLane, List.append_assoc, List.singleton_append]
    · intro e he
      rcases List.mem_cons.mp he with rfl | he
      · rfl
      · exact h2 e he

theorem freeLane_foldl (Device : GenericDeviceTy) (data : List Nat) (t : Trace) :
    ∃ h : Trace, data.foldl (freeLane Device) t = t ++ h ∧
      ∀ e ∈ h, e.isOpenOrClose = false := by
  induction data generalizing t with
  | nil => exact ⟨[], by simp, by simp⟩
  | cons d data ih =>
    obtain ⟨h, h1, h2⟩ := ih (freeLane Device t d)
    refine ⟨Event.free Device.getDeviceId d TargetAllocTy.TARGET_ALLOC_DEVICE_NON_BLOCKING :: h,
      ?_, ?_⟩
    · rw [List.foldl_cons, h1]
      simp only [freeLane, List.append_assoc, List.singleton_append]
    · intro e he
      rcases List.mem_cons.mp he with rfl | he
      · rfl
      · exact h2 e he

/-- Whatever case of the `switch` runs, it only appends events to the trace, and
none of them opens or closes a port. -/
theorem dispatch_trace (T : Transport) (Device : GenericDeviceTy) (p : Port) (t : Trace) :
    ∃ h : Trace, (dispatch T Device p t).2 = t ++ h ∧ ∀ e ∈ h, e.isOpenOrClose = false := by
  unfold dispatch
  split
  · obtain ⟨h, h1, h2⟩ := mallocLane_foldl Device p.data (t, [])
    refine ⟨h ++ [Event.send p (p.data.foldl (mallocLane Device) (t, [])).2], ?_, ?_⟩
    · simp only [recv_and_send, h1, List.append_assoc]
    · intro e he
      rcases List.mem_append.mp he with he | he
      · exact h2 e he
      · simp only [List.mem_singleton] at he
        subst he
        rfl
  · split
    · obtain ⟨h, h1, h2⟩ := freeLane_foldl Device p.data t
      exact ⟨h, by simp only [recv, h1], h2⟩
    · refine ⟨[_], rfl, ?_⟩
      intro e he
      simp only [List.mem_singleton] at he
      subst he
      rfl

/-- Opening a port, running calls that neither open nor close a port, and closing
the port leaves the list of open ports as it was. -/
theorem openPorts_open_close (t : Trace) (V : Server) (l : Nat) (p : Port) (h : Trace)
    (hh : ∀ e ∈ h, e.isOpenOrClose = false) :
    openPorts (t ++ [Event.try_open V l (some p)] ++ h ++ [Event.close p]) = openPorts t := by
  rw [openPorts_eq_foldl, List.foldl_append, List.foldl_append, List.foldl_append,
    foldl_portStep_neutral h _ hh]
  simp only [List.foldl_cons, List.foldl_nil, portStep, List.erase_cons_head]
  rfl

/-- With no pending port `runServer` makes the single call `try_open` and returns. -/
theorem runServer_none (T : Transport) (Device : GenericDeviceTy) (S : RPCServerTy) (t : Trace)
    (h : T.try_open t (serverView T Device S) Device.getWarpSize = none) :
    runServer T Device S t = ⟨Error.success, S,
      t ++ [Event.try_open (serverView T Device S) Device.getWarpSize none]⟩ := by
  unfold runServer
  simp only [serverView] at h
  simp only [h, serverView]

/-- With a pending port `runServer` runs the `switch`, closes the port, and turns
the status into its return value. -/
theorem runServer_some (T : Transport) (Device : GenericDeviceTy) (S : RPCServerTy) (t : Trace)
    (p : Port) (h : T.try_open t (serverView T Device S) Device.getWarpSize = some p) :
    runServer T Device S t =
      ⟨if (dispatch T Device p
            (t ++ [Event.try_open (serverView T Device S) Device.getWarpSize (some p)])).1
            = T.SUCCESS
        then Error.success else Error.error "RPC server given invalid opcode!",
       S,
       (dispatch T Device p
          (t ++ [Event.try_open (serverView T Device S) Device.getWarpSize (some p)])).2
        ++ [Event.close p]⟩ := by
  unfold runServer
  simp only [serverView] at h
  simp only [h, serverView]
  split <;> simp_all

/-! ## The claims on `runServer` -/

/-- C1: `runServer` calls `close` exactly once when `try_open` returned a port and not
at all when it returned none.  When a port `p` was opened, the calls of the call
are `try_open`, then the calls of the selected handler (none of which opens or
closes a port), then `close p` as the last call before the return, whatever the
opcode and whatever status the handler produced; so the ports open after the call
are those open before it. -/
theorem runServer_closes_port_exactly_once (T : Transport) (Device : GenericDeviceTy)
    (S : RPCServerTy) (t : Trace) :
    (∃ calls : Trace, (runServer T Device S t).trace = t ++ calls ∧
      calls.countP Event.isClose =
        if (T.try_open t (serverView T Device S) Device.getWarpSize).isSome then 1 else 0) ∧
    (∀ p, T.try_open t (serverView T Device S) Device.getWarpSize = some p →
      ∃ handler : Trace,
        (dispatch T Device p
          (t ++ [Event.try_open (serverView T Device S) Device.getWarpSize (some p)])).2 =
          t ++ [Event.try_open (serverView T Device S) Device.getWarpSize (some p)] ++ handler ∧
        (∀ e ∈ handler, e.isOpenOrClose = false) ∧
        (runServer T Device S t).trace =
          t ++ [Event.try_open (serverView T Device S) Device.getWarpSize (some p)] ++ handler
            ++ [Event.close p]) ∧
    openPorts (runServer T Device S t).trace = openPorts t := by
  cases hp : T.try_open t (serverView T Device S) Device.getWarpSize with
  | none =>
    rw [runServer_none T Device S t hp]
    refine ⟨⟨[Event.try_open (serverView T Device S) Device.getWarpSize none], rfl, rfl⟩, ?_, ?_⟩
    · intro p h
      cases h
    · exact openPorts_append_neutral t _ (by
        intro e he
        simp only [List.mem_singleton] at he
        subst he
        rfl)
  | some p =>
    rw [runServer_some T Device S t p hp]
    obtain ⟨h, h1, h2⟩ := dispatch_trace T Device p
      (t ++ [Event.try_open (serverView T Device S) Device.getWarpSize (some p)])
    refine ⟨⟨[Event.try_open (serverView T Device S) Device.getWarpSize (some p)] ++ h
        ++ [Event.close p], ?_, ?_⟩, ?_, ?_⟩
    · simp only [h1, List.append_assoc]
    · simp only [List.countP_append, countP_isClose_neutral h h2]
      rfl
    · intro q hq
      cases hq
      exact ⟨h, h1, h2, by simp only [h1]⟩
    · simp only [h1]
      exact openPorts_open_close t _ _ p h h2

/-- C3: when `runServer` opens a port with opcode `RPC_MALLOC` and the single payload
`n`, its calls after `try_open` are exactly: one `Device.allocate(n, nullptr,
TARGET_ALLOC_DEVICE_NON_BLOCKING)`, the send of the response whose payload is the
address `a` the allocator returned, and `close`; no `Device.free` and no external
handler call; the object is unchanged and the return value is success.  When the
allocator returned null the response payload is `0` and the return value is still
success. -/
theorem runServer_malloc (T : Transport) (Device : GenericDeviceTy) (S : RPCServerTy)
    (t : Trace) (p : Port) (n : Nat)
    (hopen : T.try_open t (serverView T Device S) Device.getWarpSize = some p)
    (hop : p.opcode = T.RPC_MALLOC) (hdata : p.data = [n]) :
    (runServer T Device S t = ⟨Error.success, S,
      t ++ [Event.try_open (serverView T Device S) Device.getWarpSize (some p),
        Event.allocate Device.getDeviceId n 0 TargetAllocTy.TARGET_ALLOC_DEVICE_NON_BLOCKING
          (Device.allocate
            (t ++ [Event.try_open (serverView T Device S) Device.getWarpSize (some p)])
            n 0 TargetAllocTy.TARGET_ALLOC_DEVICE_NON_BLOCKING),
        Event.send p [Device.allocate
            (t ++ [Event.try_open (serverView T Device S) Device.getWarpSize (some p)])
            n 0 TargetAllocTy.TARGET_ALLOC_DEVICE_NON_BLOCKING],
        Event.close p]⟩) ∧
    (Device.allocate (t ++ [Event.try_open (serverView T Device S) Device.getWarpSize (some p)])
        n 0 TargetAllocTy.TARGET_ALLOC_DEVICE_NON_BLOCKING = 0 →
      runServer T Device S t = ⟨Error.success, S,
        t ++ [Event.try_open (serverView T Device S) Device.getWarpSize (some p),
          Event.allocate Device.getDeviceId n 0 TargetAllocTy.TARGET_ALLOC_DEVICE_NON_BLOCKING 0,
          Event.send p [0],
          Event.close p]⟩) := by
  have key : runServer T Device S t = ⟨Error.success, S,
      t ++ [Event.try_open (serverView T Device S) Device.getWarpSize (some p),
        Event.allocate Device.getDeviceId n 0 TargetAllocTy.TARGET_ALLOC_DEVICE_NON_BLOCKING
          (Device.allocate
            (t ++ [Event.try_open (serverView T Device S) Device.getWarpSize (some p)])
            n 0 TargetAllocTy.TARGET_ALLOC_DEVICE_NON_BLOCKING),
        Event.send p [Device.allocate
            (t ++ [Event.try_open (serverView T Device S) Device.getWarpSize (some p)])
            n 0 TargetAllocTy.TARGET_ALLOC_DEVICE_NON_BLOCKING],
        Event.close p]⟩ := by
    rw [runServer_some T Device S t p hopen]
    simp [dispatch, hop, recv_and_send, hdata, mallocLane]
  refine ⟨key, ?_⟩
  intro h0
  rw [key, h0]

/-- C9: when `runServer` opens a port with opcode `RPC_FREE` and the single payload
`P`, its calls after `try_open` are exactly: one `Device.free(P,
TARGET_ALLOC_DEVICE_NON_BLOCKING)` and `close`; the allocator and the external
handler are not called and nothing is sent back on the port; the object is
unchanged and the return value is success. -/
theorem runServer_free (T : Transport) (Device : GenericDeviceTy) (S : RPCServerTy)
    (t : Trace) (p : Port) (P : Ptr)
    (hopen : T.try_open t (serverView T Device S) Device.getWarpSize = some p)
    (hop : p.opcode = T.RPC_FREE) (hdata : p.data = [P]) :
    runServer T Device S t = ⟨Error.success, S,
      t ++ [Event.try_open (serverView T Device S) Device.getWarpSize (some p),
        Event.free Device.getDeviceId P TargetAllocTy.TARGET_ALLOC_DEVICE_NON_BLOCKING,
        Event.close p]⟩ := by
  rw [runServer_some T Device S t p hopen]
  have hne : ¬ T.RPC_FREE = T.RPC_MALLOC := fun h => T.opcodes_distinct h.symm
  simp [dispatch, hop, hne, recv, hdata, freeLane]

/-- C4: when `runServer` opens a port whose opcode is neither `RPC_MALLOC` nor
`RPC_FREE`, its calls after `try_open` are exactly: one
`libc_handle_rpc_port(port, Device.getWarpSize())` and `close`; neither the
allocator nor `Device.free` is called.  It returns success exactly when the
handler status is `SUCCESS`, and for any other status it returns the error
"RPC server given invalid opcode!", with `close` already made, the port no longer
open and the object (the registry) unchanged. -/
theorem runServer_delegates_other_opcodes (T : Transport) (Device : GenericDeviceTy)
    (S : RPCServerTy) (t : Trace) (p : Port)
    (hopen : T.try_open t (serverView T Device S) Device.getWarpSize = some p)
    (hm : p.opcode ≠ T.RPC_MALLOC) (hf : p.opcode ≠ T.RPC_FREE) :
    (runServer T Device S t).trace =
      t ++ [Event.try_open (serverView T Device S) Device.getWarpSize (some p),
        Event.libc_handle_rpc_port p Device.getWarpSize
          (T.libc_handle_rpc_port
            (t ++ [Event.try_open (serverView T Device S) Device.getWarpSize (some p)])
            p Device.getWarpSize),
        Event.close p] ∧
    ((runServer T Device S t).Err = Error.success ↔
      T.libc_handle_rpc_port
        (t ++ [Event.try_open (serverView T Device S) Device.getWarpSize (some p)])
        p Device.getWarpSize = T.SUCCESS) ∧
    (T.libc_handle_rpc_port
        (t ++ [Event.try_open (serverView T Device S) Device.getWarpSize (some p)])
        p Device.getWarpSize ≠ T.SUCCESS →
      (runServer T Device S t).Err = Error.error "RPC server given invalid opcode!") ∧
    (runServer T Device S t).Server = S ∧
    openPorts (runServer T Device S t).trace = openPorts t := by
  rw [runServer_some T Device S t p hopen]
  simp only [dispatch, hm, hf, if_false]
  refine ⟨by simp, ?_, ?_, trivial, ?_⟩
  · split <;> simp_all
  · intro h
    simp [h]
  · exact openPorts_open_close t _ _ p
      [Event.libc_handle_rpc_port p Device.getWarpSize
        (T.libc_handle_rpc_port
          (t ++ [Event.try_open (serverView T Device S) Device.getWarpSize (some p)])
          p Device.getWarpSize)]
      (by
        intro e he
        simp only [List.mem_singleton] at he
        subst he
        rfl)

/-- C8: when `try_open` reports no pending port, `runServer` returns success, its
only call is that `try_open` (no allocator, `Device.free`, external handler or
`close` call) and the object is unchanged.  Hence if no port is pending at any of
`n + 1` calls in a row, the last call returns what a single call returns, the
object is what a single call leaves, and the calls made are `n + 1` times
`try_open`. -/
theorem runServer_idle_noop (T : Transport) (Device : GenericDeviceTy) (S : RPCServerTy)
    (t : Trace) (n : Nat)
    (hidle : ∀ k ≤ n, T.try_open
      (t ++ List.replicate k (Event.try_open (serverView T Device S) Device.getWarpSize none))
      (serverView T Device S) Device.getWarpSize = none) :
    runServer T Device S t = ⟨Error.success, S,
      t ++ [Event.try_open (serverView T Device S) Device.getWarpSize none]⟩ ∧
    [Event.try_open (serverView T Device S) Device.getWarpSize none].countP Event.isService = 0 ∧
    runServerTimes T Device (n + 1) S t = ⟨Error.success, S,
      t ++ List.replicate (n + 1)
        (Event.try_open (serverView T Device S) Device.getWarpSize none)⟩ ∧
    (runServerTimes T Device (n + 1) S t).Err = (runServer T Device S t).Err ∧
    (runServerTimes T Device (n + 1) S t).Server = (runServer T Device S t).Server := by
  have h0 : runServer T Device S t = ⟨Error.success, S,
      t ++ [Event.try_open (serverView T Device S) Device.getWarpSize none]⟩ :=
    runServer_none T Device S t (by simpa using hidle 0 (Nat.zero_le n))
  have hk : ∀ k, k ≤ n + 1 → runServerTimes T Device k S t = ⟨Error.success, S,
      t ++ List.replicate k
        (Event.try_open (serverView T Device S) Device.getWarpSize none)⟩ := by
    intro k
    induction k with
    | zero => intro _; simp [runServerTimes]
    | succ k ih =>
      intro hle
      have hprev := ih (by omega)
      simp only [runServerTimes, hprev]
      rw [runServer_none T Device S _ (hidle k (by omega))]
      simp [List.replicate_succ', List.append_assoc]
  refine ⟨h0, rfl, hk (n + 1) le_rfl, ?_, ?_⟩
  · rw [hk (n + 1) le_rfl, h0]
  · rw [hk (n + 1) le_rfl, h0]

/-! ## The claims on `initDevice` and `deinitDevice` -/

/-- Whenever `initDevice` returns an error it returns the object it was given. -/
theorem initDevice_error_server (T : Transport) (Device : GenericDeviceTy)
    (Handler : GenericGlobalHandlerTy) (Image : Nat) (S : RPCServerTy) (t : Trace)
    (h : (initDevice T Device Handler Image S t).Err ≠ Error.success) :
    (initDevice T Device Handler Image S t).Server = S := by
  unfold initDevice at h ⊢
  simp only at h ⊢
  split
  · rfl
  · split
    · rfl
    · split
      · rfl
      · split
        · rfl
        · rename_i hE
          simp_all

/-- When `initDevice` succeeds, the host allocation returned a non-null buffer, and
the call made exactly four calls: the host allocation, the symbol lookup (which
reported an address `sym`), the retrieval of the pointer stored at `sym` (which
read `cptr`), and the submission of the client to `cptr`; the buffer is stored
into `Buffers`. -/
theorem initDevice_success_shape (T : Transport) (Device : GenericDeviceTy)
    (Handler : GenericGlobalHandlerTy) (Image : Nat) (S : RPCServerTy) (t : Trace)
    (h : (initDevice T Device Handler Image S t).Err = Error.success) :
    ∃ sym cptr : Ptr,
      Device.allocate t
        (T.allocation_size Device.getWarpSize (min Device.requestedRPCPortCount T.MAX_PORT_COUNT))
        0 TargetAllocTy.TARGET_ALLOC_HOST ≠ 0 ∧
      initDevice T Device Handler Image S t =
        ⟨Error.success,
         S.put Device.getDeviceId (Device.allocate t
            (T.allocation_size Device.getWarpSize
              (min Device.requestedRPCPortCount T.MAX_PORT_COUNT))
            0 TargetAllocTy.TARGET_ALLOC_HOST),
         t ++ [Event.allocate Device.getDeviceId
                (T.allocation_size Device.getWarpSize
                  (min Device.requestedRPCPortCount T.MAX_PORT_COUNT))
                0 TargetAllocTy.TARGET_ALLOC_HOST
                (Device.allocate t
                  (T.allocation_size Device.getWarpSize
                    (min Device.requestedRPCPortCount T.MAX_PORT_COUNT))
                  0 TargetAllocTy.TARGET_ALLOC_HOST),
               Event.getGlobalMetadataFromDevice Device.getDeviceId Image
                "__llvm_libc_rpc_client" T.sizeofPtr (Expected.ok sym),
               Event.dataRetrieve Device.getDeviceId sym T.sizeofPtr (Expected.ok cptr),
               Event.dataSubmit Device.getDeviceId cptr
                ⟨min Device.requestedRPCPortCount T.MAX_PORT_COUNT,
                 Device.allocate t
                  (T.allocation_size Device.getWarpSize
                    (min Device.requestedRPCPortCount T.MAX_PORT_COUNT))
                  0 TargetAllocTy.TARGET_ALLOC_HOST⟩
                T.sizeofClient Error.success]⟩ := by
  unfold initDevice at h ⊢
  simp only at h ⊢
  split at h
  · simp at h
  · rename_i hB
    split at h
    · simp at h
    · rename_i sym hG
      split at h
      · simp at h
      · rename_i cptr hR
        split at h
        · simp at h
        · rename_i hE
          refine ⟨sym, cptr, hB, ?_⟩
          rw [hG] at hR
          rw [hG, hR] at hE
          simp only [List.append_assoc, List.singleton_append, List.cons_append,
            List.nil_append] at hG hR hE
          simp only [hB, if_false, hG, hR, hE, List.append_assoc, List.singleton_append,
            List.cons_append, List.nil_append]

/-- Reading `Buffers[Id]` after writing `P` there gives `P`, for an index in range. -/
theorem RPCServerTy.get_put_self (S : RPCServerTy) (Id : Nat) (P : Ptr)
    (h : Id < S.Buffers.length) : (S.put Id P).get Id = P := by
  simp [RPCServerTy.get, RPCServerTy.put, List.getD_eq_getElem?_getD, h]

/-- Writing `Buffers[Id]` leaves every other entry as it was. -/
theorem RPCServerTy.get_put_other (S : RPCServerTy) (Id J : Nat) (P : Ptr) (h : J ≠ Id) :
    (S.put Id P).get J = S.get J := by
  simp [RPCServerTy.get, RPCServerTy.put, List.getD_eq_getElem?_getD,
    List.getElem?_set_ne (Ne.symm h)]

/-- The first call of `runServer` is `try_open` on the view over `Buffers[id]`. -/
theorem runServer_first_call (T : Transport) (Device : GenericDeviceTy) (S : RPCServerTy)
    (t : Trace) :
    ∃ rest : Trace, (runServer T Device S t).trace =
      t ++ Event.try_open (serverView T Device S) Device.getWarpSize
        (T.try_open t (serverView T Device S) Device.getWarpSize) :: rest := by
  cases hp : T.try_open t (serverView T Device S) Device.getWarpSize with
  | none => exact ⟨[], by rw [runServer_none T Device S t hp]⟩
  | some p =>
    obtain ⟨h, h1, _⟩ := dispatch_trace T Device p
      (t ++ [Event.try_open (serverView T Device S) Device.getWarpSize (some p)])
    exact ⟨h ++ [Event.close p], by
      rw [runServer_some T Device S t p hp, h1]
      simp [List.append_assoc]⟩

/-- C2: if `initDevice` returns an error, for whichever reason, the object after the
call (the registry `Buffers`) equals the object before it; in particular an entry
of that device that was null before the call is null after it. -/
theorem initDevice_error_leaves_registry (T : Transport) (Device : GenericDeviceTy)
    (Handler : GenericGlobalHandlerTy) (Image : Nat) (S : RPCServerTy) (t : Trace)
    (h : (initDevice T Device Handler Image S t).Err ≠ Error.success) :
    (initDevice T Device Handler Image S t).Server.Buffers = S.Buffers ∧
    (S.get Device.getDeviceId = 0 →
      (initDevice T Device Handler Image S t).Server.get Device.getDeviceId = 0) := by
  rw [initDevice_error_server T Device Handler Image S t h]
  exact ⟨rfl, fun h0 => h0⟩

/-- The descriptor device memory holds at an address right after a successful
`dataSubmit` to that address is the submitted one. -/
theorem clientAt_append_submit (DeviceId : Nat) (Addr : Ptr) (t : Trace) (c : Client)
    (Size : Nat) :
    clientAt DeviceId Addr (t ++ [Event.dataSubmit DeviceId Addr c Size Error.success]) =
      some c := by
  simp [clientAt, List.foldl_append]

/-- C10: if `initDevice` succeeds, the buffer `B` it obtained from
`Device.allocate(allocation_size(warp size, port count), nullptr, TARGET_ALLOC_HOST)`
is non-null and is the first call of `initDevice`; afterwards `Buffers[id]` is `B`
for the device id (an index of `Buffers`), every other entry and the length of
`Buffers` are unchanged, and a following `deinitDevice` makes exactly one call,
`Device.free(B, TARGET_ALLOC_HOST)`, keeps the object and returns success. -/
theorem initDevice_records_buffer_deinit_frees_it (T : Transport) (Device : GenericDeviceTy)
    (Handler : GenericGlobalHandlerTy) (Image : Nat) (S : RPCServerTy) (t : Trace)
    (hok : (initDevice T Device Handler Image S t).Err = Error.success)
    (hid : Device.getDeviceId < S.Buffers.length) :
    (Device.allocate t (T.allocation_size Device.getWarpSize (min Device.requestedRPCPortCount T.MAX_PORT_COUNT)) 0
        TargetAllocTy.TARGET_ALLOC_HOST) ≠ 0 ∧
    (∃ rest : Trace, (initDevice T Device Handler Image S t).trace =
      t ++ Event.allocate Device.getDeviceId (T.allocation_size Device.getWarpSize (min Device.requestedRPCPortCount T.MAX_PORT_COUNT)) 0
        TargetAllocTy.TARGET_ALLOC_HOST (Device.allocate t (T.allocation_size Device.getWarpSize (min Device.requestedRPCPortCount T.MAX_PORT_COUNT)) 0
        TargetAllocTy.TARGET_ALLOC_HOST) :: rest) ∧
    (initDevice T Device Handler Image S t).Server.get Device.getDeviceId = (Device.allocate t (T.allocation_size Device.getWarpSize (min Device.requestedRPCPortCount T.MAX_PORT_COUNT)) 0
        TargetAllocTy.TARGET_ALLOC_HOST) ∧
    (∀ J, J ≠ Device.getDeviceId → (initDevice T Device Handler Image S t).Server.get J = S.get J) ∧
    (initDevice T Device Handler Image S t).Server.Buffers.length = S.Buffers.length ∧
    (∀ t2 : Trace, deinitDevice Device (initDevice T Device Handler Image S t).Server t2 =
      ⟨Error.success, (initDevice T Device Handler Image S t).Server,
        t2 ++ [Event.free Device.getDeviceId (Device.allocate t (T.allocation_size Device.getWarpSize (min Device.requestedRPCPortCount T.MAX_PORT_COUNT)) 0
        TargetAllocTy.TARGET_ALLOC_HOST) TargetAllocTy.TARGET_ALLOC_HOST]⟩) := by
  obtain ⟨sym, cptr, hB, hshape⟩ := initDevice_success_shape T Device Handler Image S t hok
  rw [hshape]
  refine ⟨hB, ⟨_, by simp only [List.singleton_append, List.cons_append, List.nil_append]; rfl⟩,
    RPCServerTy.get_put_self S _ _ hid, ?_, ?_, ?_⟩
  · intro J hJ
    exact RPCServerTy.get_put_other S _ J _ hJ
  · simp [RPCServerTy.put]
  · intro t2
    simp only [deinitDevice, RPCServerTy.get_put_self S _ _ hid]

/-- C7: the port count is `min(requestedRPCPortCount, MAX_PORT_COUNT)` in both
functions: it is the second argument of `allocation_size` in the first call of
`initDevice`, and the port count of the server view in the first call of every
`runServer`, whatever the object and the trace at that time.  It never exceeds
`MAX_PORT_COUNT` and equals the requested count when that is at most the maximum.
After a successful `initDevice` (device id an index of `Buffers`), the client
submitted to the device and the server view of every later `runServer` on the
resulting object carry the same port count and the same buffer. -/
theorem port_count_agrees_init_and_dispatch (T : Transport) (Device : GenericDeviceTy)
    (Handler : GenericGlobalHandlerTy) (Image : Nat) (S : RPCServerTy) (t : Trace) :
    (min Device.requestedRPCPortCount T.MAX_PORT_COUNT) ≤ T.MAX_PORT_COUNT ∧
    (Device.requestedRPCPortCount ≤ T.MAX_PORT_COUNT →
      (min Device.requestedRPCPortCount T.MAX_PORT_COUNT) = Device.requestedRPCPortCount) ∧
    (∃ rest : Trace, (initDevice T Device Handler Image S t).trace =
      t ++ Event.allocate Device.getDeviceId (T.allocation_size Device.getWarpSize (min Device.requestedRPCPortCount T.MAX_PORT_COUNT)) 0
        TargetAllocTy.TARGET_ALLOC_HOST (Device.allocate t (T.allocation_size Device.getWarpSize (min Device.requestedRPCPortCount T.MAX_PORT_COUNT)) 0
        TargetAllocTy.TARGET_ALLOC_HOST) :: rest) ∧
    (∀ (S2 : RPCServerTy) (t2 : Trace), ∃ rest : Trace, (runServer T Device S2 t2).trace =
      t2 ++ Event.try_open ⟨(min Device.requestedRPCPortCount T.MAX_PORT_COUNT), S2.get Device.getDeviceId⟩ Device.getWarpSize
        (T.try_open t2 ⟨(min Device.requestedRPCPortCount T.MAX_PORT_COUNT), S2.get Device.getDeviceId⟩ Device.getWarpSize) :: rest) ∧
    ((initDevice T Device Handler Image S t).Err = Error.success → Device.getDeviceId < S.Buffers.length →
      (∃ cptr : Ptr, Event.dataSubmit Device.getDeviceId cptr ⟨(min Device.requestedRPCPortCount T.MAX_PORT_COUNT), (Device.allocate t (T.allocation_size Device.getWarpSize (min Device.requestedRPCPortCount T.MAX_PORT_COUNT)) 0
        TargetAllocTy.TARGET_ALLOC_HOST)⟩ T.sizeofClient
          Error.success ∈ (initDevice T Device Handler Image S t).trace) ∧
      (∀ t2 : Trace, ∃ rest : Trace,
        (runServer T Device (initDevice T Device Handler Image S t).Server t2).trace =
          t2 ++ Event.try_open ⟨(min Device.requestedRPCPortCount T.MAX_PORT_COUNT), (Device.allocate t (T.allocation_size Device.getWarpSize (min Device.requestedRPCPortCount T.MAX_PORT_COUNT)) 0
        TargetAllocTy.TARGET_ALLOC_HOST)⟩ Device.getWarpSize
            (T.try_open t2 ⟨(min Device.requestedRPCPortCount T.MAX_PORT_COUNT), (Device.allocate t (T.allocation_size Device.getWarpSize (min Device.requestedRPCPortCount T.MAX_PORT_COUNT)) 0
        TargetAllocTy.TARGET_ALLOC_HOST)⟩ Device.getWarpSize) :: rest)) := by
  refine ⟨Nat.min_le_right _ _, fun h => Nat.min_eq_left h, ?_, ?_, ?_⟩
  · unfold initDevice
    simp only
    split
    · exact ⟨[], rfl⟩
    · split
      · simp only [List.append_assoc, List.singleton_append]
        exact ⟨_, rfl⟩
      · split
        · simp only [List.append_assoc, List.singleton_append]
          exact ⟨_, rfl⟩
        · split
          · simp only [List.append_assoc, List.singleton_append]
            exact ⟨_, rfl⟩
          · simp only [List.append_assoc, List.singleton_append]
            exact ⟨_, rfl⟩
  · intro S2 t2
    exact runServer_first_call T Device S2 t2
  · intro hok hid
    obtain ⟨sym, cptr, hB, hshape⟩ := initDevice_success_shape T Device Handler Image S t hok
    refine ⟨⟨cptr, by rw [hshape]; simp⟩, ?_⟩
    intro t2
    have h := runServer_first_call T Device (initDevice T Device Handler Image S t).Server t2
    have hv : serverView T Device (initDevice T Device Handler Image S t).Server = ⟨(min Device.requestedRPCPortCount T.MAX_PORT_COUNT), (Device.allocate t (T.allocation_size Device.getWarpSize (min Device.requestedRPCPortCount T.MAX_PORT_COUNT)) 0
        TargetAllocTy.TARGET_ALLOC_HOST)⟩ := by
      rw [hshape]
      simp only [serverView, RPCServerTy.get_put_self S _ _ hid]
    rw [hv] at h
    exact h

/-- C6, as the code has it: when `initDevice` succeeds (device id an index of
`Buffers`), the client descriptor is submitted to device memory exactly once.  Its
destination is not the address `sym` of the symbol "__llvm_libc_rpc_client"
reported by the lookup but the pointer `cptr` that `dataRetrieve` read from device
memory at `sym`.  The descriptor is (min(requestedRPCPortCount, MAX_PORT_COUNT),
buffer recorded in `Buffers` for the device), and reading device memory back at
`cptr` after the call yields it. -/
theorem initDevice_submits_client_to_retrieved_pointer (T : Transport)
    (Device : GenericDeviceTy) (Handler : GenericGlobalHandlerTy) (Image : Nat)
    (S : RPCServerTy) (t : Trace)
    (hok : (initDevice T Device Handler Image S t).Err = Error.success)
    (hid : Device.getDeviceId < S.Buffers.length) :
    ∃ (sym cptr : Ptr) (calls : Trace),
      (initDevice T Device Handler Image S t).trace = t ++ calls ∧
      Event.getGlobalMetadataFromDevice Device.getDeviceId Image "__llvm_libc_rpc_client"
        T.sizeofPtr (Expected.ok sym) ∈ calls ∧
      Event.dataRetrieve Device.getDeviceId sym T.sizeofPtr (Expected.ok cptr) ∈ calls ∧
      calls.filter Event.isDataSubmit =
        [Event.dataSubmit Device.getDeviceId cptr
          ⟨(min Device.requestedRPCPortCount T.MAX_PORT_COUNT), (initDevice T Device Handler Image S t).Server.get Device.getDeviceId⟩ T.sizeofClient Error.success] ∧
      clientAt Device.getDeviceId cptr (initDevice T Device Handler Image S t).trace =
        some ⟨(min Device.requestedRPCPortCount T.MAX_PORT_COUNT), (initDevice T Device Handler Image S t).Server.get Device.getDeviceId⟩ := by
  obtain ⟨sym, cptr, hB, hshape⟩ := initDevice_success_shape T Device Handler Image S t hok
  rw [hshape]
  simp only [RPCServerTy.get_put_self S _ _ hid]
  refine ⟨sym, cptr, _, rfl, by simp, by simp, by simp [List.filter, Event.isDataSubmit], ?_⟩
  have := clientAt_append_submit Device.getDeviceId cptr
    (t ++ [Event.allocate Device.getDeviceId (T.allocation_size Device.getWarpSize (min Device.requestedRPCPortCount T.MAX_PORT_COUNT)) 0
        TargetAllocTy.TARGET_ALLOC_HOST (Device.allocate t (T.allocation_size Device.getWarpSize (min Device.requestedRPCPortCount T.MAX_PORT_COUNT)) 0
        TargetAllocTy.TARGET_ALLOC_HOST),
      Event.getGlobalMetadataFromDevice Device.getDeviceId Image "__llvm_libc_rpc_client"
        T.sizeofPtr (Expected.ok sym),
      Event.dataRetrieve Device.getDeviceId sym T.sizeofPtr (Expected.ok cptr)])
    ⟨(min Device.requestedRPCPortCount T.MAX_PORT_COUNT), (Device.allocate t (T.allocation_size Device.getWarpSize (min Device.requestedRPCPortCount T.MAX_PORT_COUNT)) 0
        TargetAllocTy.TARGET_ALLOC_HOST)⟩ T.sizeofClient
  simpa [List.append_assoc] using this

/-- C5, as the code has it: after a successful `initDevice` (device id an index of
`Buffers`) and a `deinitDevice`, which frees the buffer `B`, the entry
`Buffers[id]` is still `B`, not null.  A later `runServer` is therefore not rejected:
its first call is `try_open` on the server view over `B`, and with no pending
port it returns success. -/
theorem runServer_after_deinit_polls_freed_buffer (T : Transport) (Device : GenericDeviceTy)
    (Handler : GenericGlobalHandlerTy) (Image : Nat) (S : RPCServerTy) (t : Trace)
    (hok : (initDevice T Device Handler Image S t).Err = Error.success)
    (hid : Device.getDeviceId < S.Buffers.length) :
    (Device.allocate t (T.allocation_size Device.getWarpSize (min Device.requestedRPCPortCount T.MAX_PORT_COUNT)) 0
        TargetAllocTy.TARGET_ALLOC_HOST) ≠ 0 ∧
    (deinitDevice Device (initDevice T Device Handler Image S t).Server (initDevice T Device Handler Image S t).trace).trace =
      (initDevice T Device Handler Image S t).trace ++ [Event.free Device.getDeviceId (Device.allocate t (T.allocation_size Device.getWarpSize (min Device.requestedRPCPortCount T.MAX_PORT_COUNT)) 0
        TargetAllocTy.TARGET_ALLOC_HOST) TargetAllocTy.TARGET_ALLOC_HOST] ∧
    (deinitDevice Device (initDevice T Device Handler Image S t).Server (initDevice T Device Handler Image S t).trace).Server.get Device.getDeviceId = (Device.allocate t (T.allocation_size Device.getWarpSize (min Device.requestedRPCPortCount T.MAX_PORT_COUNT)) 0
        TargetAllocTy.TARGET_ALLOC_HOST) ∧
    (∀ t3 : Trace, ∃ rest : Trace,
      (runServer T Device (deinitDevice Device (initDevice T Device Handler Image S t).Server (initDevice T Device Handler Image S t).trace).Server t3).trace =
        t3 ++ Event.try_open ⟨(min Device.requestedRPCPortCount T.MAX_PORT_COUNT), (Device.allocate t (T.allocation_size Device.getWarpSize (min Device.requestedRPCPortCount T.MAX_PORT_COUNT)) 0
        TargetAllocTy.TARGET_ALLOC_HOST)⟩ Device.getWarpSize
          (T.try_open t3 ⟨(min Device.requestedRPCPortCount T.MAX_PORT_COUNT), (Device.allocate t (T.allocation_size Device.getWarpSize (min Device.requestedRPCPortCount T.MAX_PORT_COUNT)) 0
        TargetAllocTy.TARGET_ALLOC_HOST)⟩ Device.getWarpSize) :: rest) ∧
    (∀ t3 : Trace, T.try_open t3 ⟨(min Device.requestedRPCPortCount T.MAX_PORT_COUNT), (Device.allocate t (T.allocation_size Device.getWarpSize (min Device.requestedRPCPortCount T.MAX_PORT_COUNT)) 0
        TargetAllocTy.TARGET_ALLOC_HOST)⟩ Device.getWarpSize = none →
      (runServer T Device (deinitDevice Device (initDevice T Device Handler Image S t).Server (initDevice T Device Handler Image S t).trace).Server t3).Err =
        Error.success) := by
  obtain ⟨sym, cptr, hB, hshape⟩ := initDevice_success_shape T Device Handler Image S t hok
  have hget : (initDevice T Device Handler Image S t).Server.get Device.getDeviceId = (Device.allocate t (T.allocation_size Device.getWarpSize (min Device.requestedRPCPortCount T.MAX_PORT_COUNT)) 0
        TargetAllocTy.TARGET_ALLOC_HOST) := by
    rw [hshape]
    exact RPCServerTy.get_put_self S _ _ hid
  have hv : serverView T Device (deinitDevice Device (initDevice T Device Handler Image S t).Server (initDevice T Device Handler Image S t).trace).Server =
      ⟨(min Device.requestedRPCPortCount T.MAX_PORT_COUNT), (Device.allocate t (T.allocation_size Device.getWarpSize (min Device.requestedRPCPortCount T.MAX_PORT_COUNT)) 0
        TargetAllocTy.TARGET_ALLOC_HOST)⟩ := by
    simp only [serverView, deinitDevice, hget]
  refine ⟨hB, by simp only [deinitDevice, hget], by simp only [deinitDevice, hget], ?_, ?_⟩
  · intro t3
    have h := runServer_first_call T Device
      (deinitDevice Device (initDevice T Device Handler Image S t).Server (initDevice T Device Handler Image S t).trace).Server t3
    rw [hv] at h
    exact h
  · intro t3 hnone
    rw [runServer_none T Device _ t3 (by rw [hv]; exact hnone)]

/-! ## The theorems at a concrete plugin -/

/-- Witness of C1: an allocation request is pending; the handler calls are the
allocation and the send, and `close` follows them. -/
theorem runServer_closes_port_exactly_once_witness :
    (demoTransport (some demoMallocPort) 0).try_open []
        (serverView (demoTransport (some demoMallocPort) 0) (demoDevice 1000 7 Error.success)
          (RPCServerTy.new 3)) 32 = some demoMallocPort ∧
    ∃ handler : Trace,
      (dispatch (demoTransport (some demoMallocPort) 0) (demoDevice 1000 7 Error.success)
          demoMallocPort
          ([] ++ [Event.try_open (serverView (demoTransport (some demoMallocPort) 0)
            (demoDevice 1000 7 Error.success) (RPCServerTy.new 3)) 32 (some demoMallocPort)])).2 =
        [] ++ [Event.try_open (serverView (demoTransport (some demoMallocPort) 0)
            (demoDevice 1000 7 Error.success) (RPCServerTy.new 3)) 32 (some demoMallocPort)]
          ++ handler ∧
      (∀ e ∈ handler, e.isOpenOrClose = false) ∧
      (runServer (demoTransport (some demoMallocPort) 0) (demoDevice 1000 7 Error.success)
          (RPCServerTy.new 3) []).trace =
        [] ++ [Event.try_open (serverView (demoTransport (some demoMallocPort) 0)
            (demoDevice 1000 7 Error.success) (RPCServerTy.new 3)) 32 (some demoMallocPort)]
          ++ handler ++ [Event.close demoMallocPort] :=
  ⟨rfl, (runServer_closes_port_exactly_once (demoTransport (some demoMallocPort) 0)
    (demoDevice 1000 7 Error.success) (RPCServerTy.new 3) []).2.1 demoMallocPort rfl⟩

/-- Witness of C2: the transfer of the client fails after the three earlier steps
succeeded; `Buffers` is still all null. -/
theorem initDevice_error_leaves_registry_witness :
    (initDevice (demoTransport none 0) (demoDevice 1000 7 (Error.error "transfer failed"))
        demoHandler 0 (RPCServerTy.new 3) []).Err ≠ Error.success ∧
    (initDevice (demoTransport none 0) (demoDevice 1000 7 (Error.error "transfer failed"))
        demoHandler 0 (RPCServerTy.new 3) []).Server.Buffers = [0, 0, 0] :=
  ⟨by decide,
   (initDevice_error_leaves_registry (demoTransport none 0)
      (demoDevice 1000 7 (Error.error "transfer failed")) demoHandler 0 (RPCServerTy.new 3) []
      (by decide)).1⟩

/-- Witness of C3: a request for 4096 bytes is answered with the address 7 the
allocator returned, and with 0 when the allocator returned null. -/
theorem runServer_malloc_witness :
    runServer (demoTransport (some demoMallocPort) 0) (demoDevice 1000 7 Error.success)
        (RPCServerTy.new 3) [] =
      ⟨Error.success, RPCServerTy.new 3,
        [Event.try_open ⟨4096, 0⟩ 32 (some demoMallocPort),
         Event.allocate 1 4096 0 TargetAllocTy.TARGET_ALLOC_DEVICE_NON_BLOCKING 7,
         Event.send demoMallocPort [7],
         Event.close demoMallocPort]⟩ ∧
    runServer (demoTransport (some demoMallocPort) 0) (demoDevice 1000 0 Error.success)
        (RPCServerTy.new 3) [] =
      ⟨Error.success, RPCServerTy.new 3,
        [Event.try_open ⟨4096, 0⟩ 32 (some demoMallocPort),
         Event.allocate 1 4096 0 TargetAllocTy.TARGET_ALLOC_DEVICE_NON_BLOCKING 0,
         Event.send demoMallocPort [0],
         Event.close demoMallocPort]⟩ :=
  ⟨(runServer_malloc (demoTransport (some demoMallocPort) 0) (demoDevice 1000 7 Error.success)
      (RPCServerTy.new 3) [] demoMallocPort 4096 rfl rfl rfl).1,
   (runServer_malloc (demoTransport (some demoMallocPort) 0) (demoDevice 1000 0 Error.success)
      (RPCServerTy.new 3) [] demoMallocPort 4096 rfl rfl rfl).2 rfl⟩

/-- Witness of C4: the external handler rejects opcode 9 with status 3; the error is
returned after `close`, and `Buffers` is as before. -/
theorem runServer_delegates_other_opcodes_witness :
    (runServer (demoTransport (some demoOtherPort) 3) (demoDevice 1000 7 Error.success)
        (RPCServerTy.new 3) []).trace =
      [Event.try_open ⟨4096, 0⟩ 32 (some demoOtherPort),
       Event.libc_handle_rpc_port demoOtherPort 32 3,
       Event.close demoOtherPort] ∧
    (runServer (demoTransport (some demoOtherPort) 3) (demoDevice 1000 7 Error.success)
        (RPCServerTy.new 3) []).Err = Error.error "RPC server given invalid opcode!" ∧
    (runServer (demoTransport (some demoOtherPort) 3) (demoDevice 1000 7 Error.success)
        (RPCServerTy.new 3) []).Server = RPCServerTy.new 3 :=
  ⟨(runServer_delegates_other_opcodes (demoTransport (some demoOtherPort) 3)
      (demoDevice 1000 7 Error.success) (RPCServerTy.new 3) [] demoOtherPort rfl
      (by decide) (by decide)).1,
   (runServer_delegates_other_opcodes (demoTransport (some demoOtherPort) 3)
      (demoDevice 1000 7 Error.success) (RPCServerTy.new 3) [] demoOtherPort rfl
      (by decide) (by decide)).2.2.1 (by decide),
   (runServer_delegates_other_opcodes (demoTransport (some demoOtherPort) 3)
      (demoDevice 1000 7 Error.success) (RPCServerTy.new 3) [] demoOtherPort rfl
      (by decide) (by decide)).2.2.2.1⟩

/-- Witness of C8: three polls in a row with nothing pending. -/
theorem runServer_idle_noop_witness :
    runServer (demoTransport none 0) (demoDevice 1000 7 Error.success) (RPCServerTy.new 3) [] =
      ⟨Error.success, RPCServerTy.new 3, [Event.try_open ⟨4096, 0⟩ 32 none]⟩ ∧
    runServerTimes (demoTransport none 0) (demoDevice 1000 7 Error.success) 3
        (RPCServerTy.new 3) [] =
      ⟨Error.success, RPCServerTy.new 3,
        [Event.try_open ⟨4096, 0⟩ 32 none, Event.try_open ⟨4096, 0⟩ 32 none,
         Event.try_open ⟨4096, 0⟩ 32 none]⟩ :=
  ⟨(runServer_idle_noop (demoTransport none 0) (demoDevice 1000 7 Error.success)
      (RPCServerTy.new 3) [] 2 (fun _ _ => rfl)).1,
   (runServer_idle_noop (demoTransport none 0) (demoDevice 1000 7 Error.success)
      (RPCServerTy.new 3) [] 2 (fun _ _ => rfl)).2.2.1⟩

/-- Witness of C9: a request to free the address 7. -/
theorem runServer_free_witness :
    runServer (demoTransport (some demoFreePort) 0) (demoDevice 1000 7 Error.success)
        (RPCServerTy.new 3) [] =
      ⟨Error.success, RPCServerTy.new 3,
        [Event.try_open ⟨4096, 0⟩ 32 (some demoFreePort),
         Event.free 1 7 TargetAllocTy.TARGET_ALLOC_DEVICE_NON_BLOCKING,
         Event.close demoFreePort]⟩ :=
  runServer_free (demoTransport (some demoFreePort) 0) (demoDevice 1000 7 Error.success)
    (RPCServerTy.new 3) [] demoFreePort 7 rfl rfl rfl

/-- Witness of C10: device 1 of three is initialised with the host buffer 1000, and
the teardown frees exactly that buffer. -/
theorem initDevice_records_buffer_deinit_frees_it_witness :
    (initDevice (demoTransport none 0) (demoDevice 1000 7 Error.success) demoHandler 0
        (RPCServerTy.new 3) []).Err = Error.success ∧
    (initDevice (demoTransport none 0) (demoDevice 1000 7 Error.success) demoHandler 0
        (RPCServerTy.new 3) []).Server.get 1 = 1000 ∧
    deinitDevice (demoDevice 1000 7 Error.success)
        (initDevice (demoTransport none 0) (demoDevice 1000 7 Error.success) demoHandler 0
          (RPCServerTy.new 3) []).Server [] =
      ⟨Error.success,
        (initDevice (demoTransport none 0) (demoDevice 1000 7 Error.success) demoHandler 0
          (RPCServerTy.new 3) []).Server,
        [Event.free 1 1000 TargetAllocTy.TARGET_ALLOC_HOST]⟩ :=
  ⟨by decide,
   (initDevice_records_buffer_deinit_frees_it (demoTransport none 0)
      (demoDevice 1000 7 Error.success) demoHandler 0 (RPCServerTy.new 3) []
      (by decide) (by decide)).2.2.1,
   (initDevice_records_buffer_deinit_frees_it (demoTransport none 0)
      (demoDevice 1000 7 Error.success) demoHandler 0 (RPCServerTy.new 3) []
      (by decide) (by decide)).2.2.2.2.2 []⟩

/-- Witness of C7: 8192 ports are requested, 4096 is the maximum; the client and the
server view of a later poll both carry (4096, 1000). -/
theorem port_count_agrees_init_and_dispatch_witness :
    (initDevice (demoTransport none 0) (demoDevice 1000 7 Error.success) demoHandler 0
        (RPCServerTy.new 3) []).Err = Error.success ∧
    (∃ cptr : Ptr, Event.dataSubmit 1 cptr ⟨4096, 1000⟩ 48 Error.success ∈
      (initDevice (demoTransport none 0) (demoDevice 1000 7 Error.success) demoHandler 0
        (RPCServerTy.new 3) []).trace) ∧
    (∀ t2 : Trace, ∃ rest : Trace,
      (runServer (demoTransport none 0) (demoDevice 1000 7 Error.success)
          (initDevice (demoTransport none 0) (demoDevice 1000 7 Error.success) demoHandler 0
            (RPCServerTy.new 3) []).Server t2).trace =
        t2 ++ Event.try_open ⟨4096, 1000⟩ 32 none :: rest) :=
  ⟨by decide,
   (port_count_agrees_init_and_dispatch (demoTransport none 0)
      (demoDevice 1000 7 Error.success) demoHandler 0 (RPCServerTy.new 3) []).2.2.2.2
      (by decide) (by decide)⟩

/-- Counterexample to C6 as stated: the lookup reports the symbol at address 100, the
pointer stored there is 200; the only submission of the client goes to 200, and
device memory at the symbol address 100 does not hold the descriptor. -/
theorem initDevice_client_not_at_symbol_address :
    (initDevice (demoTransport none 0) (demoDevice 1000 7 Error.success) demoHandler 0
        (RPCServerTy.new 3) []) =
      ⟨Error.success, ⟨[0, 1000, 0]⟩,
        [Event.allocate 1 8454144 0 TargetAllocTy.TARGET_ALLOC_HOST 1000,
         Event.getGlobalMetadataFromDevice 1 0 "__llvm_libc_rpc_client" 8 (Expected.ok 100),
         Event.dataRetrieve 1 100 8 (Expected.ok 200),
         Event.dataSubmit 1 200 ⟨4096, 1000⟩ 48 Error.success]⟩ ∧
    clientAt 1 100 (initDevice (demoTransport none 0) (demoDevice 1000 7 Error.success)
        demoHandler 0 (RPCServerTy.new 3) []).trace ≠ some ⟨4096, 1000⟩ ∧
    clientAt 1 200 (initDevice (demoTransport none 0) (demoDevice 1000 7 Error.success)
        demoHandler 0 (RPCServerTy.new 3) []).trace = some ⟨4096, 1000⟩ := by
  decide

/-- Witness of C6 as the code has it, at the same plugin: the descriptor (4096, 1000)
is in device memory at the retrieved pointer. -/
theorem initDevice_submits_client_to_retrieved_pointer_witness :
    (initDevice (demoTransport none 0) (demoDevice 1000 7 Error.success) demoHandler 0
        (RPCServerTy.new 3) []).Err = Error.success ∧
    ∃ (sym cptr : Ptr) (calls : Trace),
      (initDevice (demoTransport none 0) (demoDevice 1000 7 Error.success) demoHandler 0
        (RPCServerTy.new 3) []).trace = [] ++ calls ∧
      Event.getGlobalMetadataFromDevice 1 0 "__llvm_libc_rpc_client" 8 (Expected.ok sym)
        ∈ calls ∧
      Event.dataRetrieve 1 sym 8 (Expected.ok cptr) ∈ calls ∧
      calls.filter Event.isDataSubmit =
        [Event.dataSubmit 1 cptr ⟨4096,
          (initDevice (demoTransport none 0) (demoDevice 1000 7 Error.success) demoHandler 0
            (RPCServerTy.new 3) []).Server.get 1⟩ 48 Error.success] ∧
      clientAt 1 cptr (initDevice (demoTransport none 0) (demoDevice 1000 7 Error.success)
          demoHandler 0 (RPCServerTy.new 3) []).trace =
        some ⟨4096,
          (initDevice (demoTransport none 0) (demoDevice 1000 7 Error.success) demoHandler 0
            (RPCServerTy.new 3) []).Server.get 1⟩ :=
  ⟨by decide,
   initDevice_submits_client_to_retrieved_pointer (demoTransport none 0)
     (demoDevice 1000 7 Error.success) demoHandler 0 (RPCServerTy.new 3) []
     (by decide) (by decide)⟩

/-- Counterexample to C5 as stated: device 1 is initialised with buffer 1000 and torn
down, which frees 1000; `Buffers[1]` is still 1000, and the next `runServer` is
not rejected: it calls `try_open` on the view over 1000 and returns success. -/
theorem runServer_after_deinit_not_rejected :
    (initDevice (demoTransport none 0) (demoDevice 1000 7 Error.success) demoHandler 0
        (RPCServerTy.new 3) []).Err = Error.success ∧
    deinitDevice (demoDevice 1000 7 Error.success)
        (initDevice (demoTransport none 0) (demoDevice 1000 7 Error.success) demoHandler 0
          (RPCServerTy.new 3) []).Server [] =
      ⟨Error.success, ⟨[0, 1000, 0]⟩, [Event.free 1 1000 TargetAllocTy.TARGET_ALLOC_HOST]⟩ ∧
    runServer (demoTransport none 0) (demoDevice 1000 7 Error.success) ⟨[0, 1000, 0]⟩
        [Event.free 1 1000 TargetAllocTy.TARGET_ALLOC_HOST] =
      ⟨Error.success, ⟨[0, 1000, 0]⟩,
        [Event.free 1 1000 TargetAllocTy.TARGET_ALLOC_HOST,
         Event.try_open ⟨4096, 1000⟩ 32 none]⟩ := by
  decide

/-- Witness of C5 as the code has it, at the same plugin. -/
theorem runServer_after_deinit_polls_freed_buffer_witness :
    (initDevice (demoTransport none 0) (demoDevice 1000 7 Error.success) demoHandler 0
        (RPCServerTy.new 3) []).Err = Error.success ∧
    (deinitDevice (demoDevice 1000 7 Error.success)
        (initDevice (demoTransport none 0) (demoDevice 1000 7 Error.success) demoHandler 0
          (RPCServerTy.new 3) []).Server
        (initDevice (demoTransport none 0) (demoDevice 1000 7 Error.success) demoHandler 0
          (RPCServerTy.new 3) []).trace).Server.get 1 = 1000 ∧
    (∀ t3 : Trace, ∃ rest : Trace,
      (runServer (demoTransport none 0) (demoDevice 1000 7 Error.success)
          (deinitDevice (demoDevice 1000 7 Error.success)
            (initDevice (demoTransport none 0) (demoDevice 1000 7 Error.success) demoHandler 0
              (RPCServerTy.new 3) []).Server
            (initDevice (demoTransport none 0) (demoDevice 1000 7 Error.success) demoHandler 0
              (RPCServerTy.new 3) []).trace).Server t3).trace =
        t3 ++ Event.try_open ⟨4096, 1000⟩ 32 none :: rest) :=
  ⟨by decide,
   (runServer_after_deinit_polls_freed_buffer (demoTransport none 0)
      (demoDevice 1000 7 Error.success) demoHandler 0 (RPCServerTy.new 3) []
      (by decide) (by decide)).2.2.1,
   (runServer_after_deinit_polls_freed_buffer (demoTransport none 0)
      (demoDevice 1000 7 Error.success) demoHandler 0 (RPCServerTy.new 3) []
      (by decide) (by decide)).2.2.2.1⟩

end RPC
